import Mathlib

/-!
# Verification of the `observability` package (unified tracing / log correlation)

Shallow embedding of the Go `observability` package: the APM backend
selection (`normalizeAPMType`, `setupTracing`), the unified tracer and span
lifecycle (`unifiedTracer.Start`, `unifiedSpan.End`, `Observability.StartSpan`
with its container clone), the correlation logging handler (`apmHandler.Handle`,
`handleOTLP`, `handleDatadog`, `extractError`, `toOtelAttribute`), and the
composite shutdowner.  Go pointers/mutation are rendered as explicit state
passing; opaque backend calls (the OTel/Datadog tracer producing a derived
context) become universally quantified inputs; effects on backend spans become
explicit operation lists.
-/

namespace Observ

/-! ## APM backend selection (src/unnamed/part_013, src/observability/trace.go) -/

/-- Go: `type APMType string`. -/
abbrev APMType := String

/-- Go constant `OTLP APMType = "otlp"`. -/
def OTLP : APMType := "otlp"

/-- Go constant `Datadog APMType = "datadog"`. -/
def Datadog : APMType := "datadog"

/-- Go constant `None APMType = "none"` (APM disabled). -/
def NoneT : APMType := "none"

/-- Go `strings.ToLower`, character-wise (the backend names compared against
are ASCII, for which per-character lowercasing coincides with Go's Unicode
lowering).  Defined over the character list so it evaluates in the kernel. -/
def goToLower (s : String) : String :=
  String.mk (s.data.map Char.toLower)

/-- Go `normalizeAPMType`: switch on `strings.ToLower(apmType)`, with the
`default` branch returning `None` ("Default to no APM if the type is unknown"). -/
def normalizeAPMType (apmType : String) : APMType :=
  if goToLower apmType = "otlp" then OTLP
  else if goToLower apmType = "datadog" then Datadog
  else if goToLower apmType = "none" then NoneT
  else NoneT

/-- Result of `setupTracing`: either a shutdowner (tagged by which backend
produced it) or an error message.  Models Go's `(Shutdowner, error)` pair. -/
inductive SetupResult where
  | shut (kind : String)
  | fail (msg : String)
  deriving DecidableEq, Repr

/-- Go `setupTracing` (trace.go): switches on `normalizeAPMType(apmType)`;
the OTLP and Datadog branches call external exporter setup whose outcome is
passed in as `otlpRes` / `ddRes`; the `None` branch returns a `noOpShutdowner`
and nil error; the `default` branch returns the `unsupported APM type` error. -/
def setupTracing (otlpRes ddRes : SetupResult) (apmType : String) : SetupResult :=
  if normalizeAPMType apmType = OTLP then otlpRes
  else if normalizeAPMType apmType = Datadog then ddRes
  else if normalizeAPMType apmType = NoneT then SetupResult.shut "noOp"
  else SetupResult.fail ("unsupported APM type: " ++ apmType)

end Observ

open Observ

/-- C4: `normalizeAPMType` is case-insensitive and total: strings whose
lower-casing is "otlp" map to OTLP, "datadog" to Datadog, "none" to None, and
every other string folds to None. -/
theorem C4_normalizeAPMType_total (s : String) :
    (goToLower s = "otlp" → normalizeAPMType s = OTLP)
    ∧ (goToLower s = "datadog" → normalizeAPMType s = Datadog)
    ∧ (goToLower s = "none" → normalizeAPMType s = NoneT)
    ∧ (goToLower s ≠ "otlp" → goToLower s ≠ "datadog" → normalizeAPMType s = NoneT) := by
  refine ⟨fun h => ?_, fun h => ?_, fun h => ?_, fun h1 h2 => ?_⟩
  · unfold normalizeAPMType; rw [h]; decide
  · unfold normalizeAPMType; rw [h]; decide
  · unfold normalizeAPMType; rw [h]; decide
  · unfold normalizeAPMType
    rw [if_neg h1, if_neg h2]
    split <;> rfl

/-- Witness for C4 at concrete inputs. -/
theorem C4_normalizeAPMType_total_witness :
    normalizeAPMType "OtLp" = OTLP ∧ normalizeAPMType "DATADOG" = Datadog
    ∧ normalizeAPMType "none" = NoneT ∧ normalizeAPMType "jaeger" = NoneT :=
  ⟨(C4_normalizeAPMType_total "OtLp").1 (by decide),
    (C4_normalizeAPMType_total "DATADOG").2.1 (by decide),
    (C4_normalizeAPMType_total "none").2.2.1 (by decide),
    (C4_normalizeAPMType_total "jaeger").2.2.2 (by decide) (by decide)⟩

/-- C3 counterexample: the claim says an unknown backend string makes tracing
setup return an "unsupported APM type" error, but `setupTracing` with the
unsupported string "bogus" succeeds, returning the no-op shutdowner. -/
theorem C3_counterexample :
    setupTracing (SetupResult.shut "otlp") (SetupResult.shut "datadog") "bogus"
      = SetupResult.shut "noOp"
    ∧ ∀ m, setupTracing (SetupResult.shut "otlp") (SetupResult.shut "datadog") "bogus"
      ≠ SetupResult.fail m := by
  have h1 : setupTracing (SetupResult.shut "otlp") (SetupResult.shut "datadog") "bogus"
      = SetupResult.shut "noOp" := by decide
  exact ⟨h1, fun m h => by rw [h1] at h; exact SetupResult.noConfusion h⟩

/-- C3 amended: every backend string that is not (case-insensitively) `otlp`
or `datadog` normalizes to None, so tracing setup succeeds with the no-op
shutdowner; the `unsupported APM type` error branch is unreachable. -/
theorem C3_amended_unknown_folds_to_noop (otlpRes ddRes : SetupResult) (s : String)
    (h1 : goToLower s ≠ "otlp") (h2 : goToLower s ≠ "datadog") :
    setupTracing otlpRes ddRes s = SetupResult.shut "noOp" := by
  have hn : normalizeAPMType s = NoneT := by
    unfold normalizeAPMType
    rw [if_neg h1, if_neg h2]
    split <;> rfl
  unfold setupTracing
  rw [hn, if_neg (by decide), if_neg (by decide), if_pos rfl]

/-- Witness for the amended C3 at a concrete unsupported string. -/
theorem C3_amended_unknown_folds_to_noop_witness :
    setupTracing (SetupResult.fail "x") (SetupResult.fail "y") "zipkin"
      = SetupResult.shut "noOp" :=
  C3_amended_unknown_folds_to_noop (SetupResult.fail "x") (SetupResult.fail "y")
    "zipkin" (by decide) (by decide)

namespace Observ

/-! ## Unified tracer and container lifecycle
(src/observability/trace.go, span.go, observability.go, src/unnamed/part_015) -/

/-- An execution context value (Go `context.Context`), identified opaquely:
two contexts are the same Go value iff their ids are equal. -/
structure Context where
  id : Nat
  deriving DecidableEq, Repr

/-- The `Observability` container: its embedded execution context `ctx`
together with the construction-time identity/backend fields.  The `Trace`,
`Log` and `ErrorHandler` components are back-references wired to the same
container and backend (`newTrace(obs, serviceName, typedAPMType)`), so the
container's `apmType` field also stands for `Trace.apmType`. -/
structure Observability where
  ctx : Context
  serviceName : String
  apmType : APMType
  deriving DecidableEq, Repr

/-- A value of a backend-native span attribute (`attribute.KeyValue` payload).
Floats are carried as opaque bit patterns. -/
inductive OtelAttrVal where
  | str (s : String)
  | int (i : Int)
  | float (bits : Nat)
  | boolV (b : Bool)
  deriving DecidableEq, Repr

/-- A backend-native span attribute (`attribute.KeyValue`). -/
structure OtelAttr where
  key : String
  val : OtelAttrVal
  deriving DecidableEq, Repr

/-- The value written by a Datadog `SetTag` call: a string, a Go `error`
value, or an attribute value passed through `AsInterface()`. -/
inductive TagVal where
  | str (s : String)
  | errV (msg : String)
  | attrV (v : OtelAttrVal)
  deriving DecidableEq, Repr

/-- OTel status codes (`codes.Code`): Unset, Error, Ok. -/
inductive StatusCode where
  | unset
  | error
  | ok
  deriving DecidableEq, Repr

/-- One observable operation performed on a backend span. -/
inductive SpanOp where
  | endSpan
  | addEvent (name : String) (attrs : List OtelAttr)
  | recordError (errMsg : String) (attrs : List OtelAttr)
  | setStatus (code : StatusCode) (descr : String)
  | setAttributes (attrs : List OtelAttr)
  | setTag (key : String) (value : TagVal)
  deriving DecidableEq, Repr

/-- Which native span a `unifiedSpan` wraps (`trace.Span` or `tracer.Span`). -/
inductive SpanKind where
  | otel
  | dd
  deriving DecidableEq, Repr

/-- The data of a `unifiedSpan`: the wrapped native span's kind, the parent
execution context captured at `Start` (restored on `End`), and the span name.
The Go `obs` back-reference is rendered by passing the referenced container
explicitly to the span methods below. -/
structure UnifiedSpan where
  kind : SpanKind
  parentCtx : Context
  name : String
  deriving DecidableEq, Repr

/-- A `Span` interface value: either the `noOpSpan` or a `unifiedSpan`. -/
inductive Span where
  | noOp
  | unified (s : UnifiedSpan)
  deriving DecidableEq, Repr

/-- The state a span method can touch: the container the span back-references
(`s.obs`) and the list of operations performed on the backend span so far. -/
structure SpanWorld where
  obs : Observability
  ops : List SpanOp
  deriving DecidableEq, Repr

/-- `unifiedSpan.AddEvent`: OTel `span.AddEvent(name, options...)`;
Datadog `span.SetTag("event", name)`. -/
def UnifiedSpan.addEventOp (s : UnifiedSpan) (name : String)
    (attrs : List OtelAttr) : SpanOp :=
  match s.kind with
  | SpanKind.otel => SpanOp.addEvent name attrs
  | SpanKind.dd => SpanOp.setTag "event" (TagVal.str name)

/-- `unifiedSpan.RecordError`: OTel `span.RecordError(err, options...)`;
Datadog `span.SetTag("error", err)`. -/
def UnifiedSpan.recordErrorOp (s : UnifiedSpan) (errMsg : String)
    (attrs : List OtelAttr) : SpanOp :=
  match s.kind with
  | SpanKind.otel => SpanOp.recordError errMsg attrs
  | SpanKind.dd => SpanOp.setTag "error" (TagVal.errV errMsg)

/-- `unifiedSpan.SetStatus`: OTel `span.SetStatus(code, description)`;
Datadog `span.SetTag("status", description)`. -/
def UnifiedSpan.setStatusOp (s : UnifiedSpan) (code : StatusCode)
    (descr : String) : SpanOp :=
  match s.kind with
  | SpanKind.otel => SpanOp.setStatus code descr
  | SpanKind.dd => SpanOp.setTag "status" (TagVal.str descr)

/-- `unifiedSpan.SetAttributes`: OTel `span.SetAttributes(attrs...)`;
Datadog one `SetTag(key, value.AsInterface())` per attribute. -/
def UnifiedSpan.setAttrOps (s : UnifiedSpan) (attrs : List OtelAttr) : List SpanOp :=
  match s.kind with
  | SpanKind.otel => [SpanOp.setAttributes attrs]
  | SpanKind.dd => attrs.map (fun a => SpanOp.setTag a.key (TagVal.attrV a.val))

/-- `Span.End`: the no-op span does nothing; `unifiedSpan.End` first restores
the captured parent context on the back-referenced container
(`s.obs.SetContext(s.parentCtx)`), then ends/finishes the backend span (and
resets the pooled struct, which is not observable through the interface). -/
def Span.End (sp : Span) (w : SpanWorld) : SpanWorld :=
  match sp with
  | Span.noOp => w
  | Span.unified s =>
    { obs := { w.obs with ctx := s.parentCtx }, ops := w.ops ++ [SpanOp.endSpan] }

/-- `Span.AddEvent` on the wrapped span (no-op for `noOpSpan`). -/
def Span.AddEvent (sp : Span) (w : SpanWorld) (name : String)
    (attrs : List OtelAttr) : SpanWorld :=
  match sp with
  | Span.noOp => w
  | Span.unified s => { w with ops := w.ops ++ [s.addEventOp name attrs] }

/-- `Span.RecordError` on the wrapped span (no-op for `noOpSpan`). -/
def Span.RecordError (sp : Span) (w : SpanWorld) (errMsg : String)
    (attrs : List OtelAttr) : SpanWorld :=
  match sp with
  | Span.noOp => w
  | Span.unified s => { w with ops := w.ops ++ [s.recordErrorOp errMsg attrs] }

/-- `Span.SetStatus` on the wrapped span (no-op for `noOpSpan`). -/
def Span.SetStatus (sp : Span) (w : SpanWorld) (code : StatusCode)
    (descr : String) : SpanWorld :=
  match sp with
  | Span.noOp => w
  | Span.unified s => { w with ops := w.ops ++ [s.setStatusOp code descr] }

/-- `Span.SetAttributes` on the wrapped span (no-op for `noOpSpan`). -/
def Span.SetAttributes (sp : Span) (w : SpanWorld) (attrs : List OtelAttr) : SpanWorld :=
  match sp with
  | Span.noOp => w
  | Span.unified s => { w with ops := w.ops ++ s.setAttrOps attrs }

/-- `unifiedTracer.Start` (trace.go lines 157-182).  If the APM type is
`None`, it returns the very same parent context and a fresh `noOpSpan`.
Otherwise it captures `parentCtx := t.obs.Context()`, obtains a pooled
`unifiedSpan` with `span.obs = t.obs` and `span.parentCtx = parentCtx`, asks
the backend to start a native span — the backend-produced derived context is
the opaque input `derived` — and then mutates the container in place via
`t.obs.SetContext(newCtx)` before returning `(newCtx, span)`.  The first
component of the result is the container's state after the call. -/
def unifiedTracer.Start (o : Observability) (ctx : Context) (derived : Context)
    (spanName : String) : Observability × Context × Span :=
  if o.apmType = NoneT then
    (o, ctx, Span.noOp)
  else
    let parentCtx := o.ctx
    let kind := if o.apmType = Datadog then SpanKind.dd else SpanKind.otel
    let sp : UnifiedSpan := { kind := kind, parentCtx := parentCtx, name := spanName }
    ({ o with ctx := derived }, derived, Span.unified sp)

/-- `Observability.clone` (src/unnamed/part_015): shallow copy with the new
context swapped in; the component back-references are re-pointed at the copy. -/
def Observability.clone (o : Observability) (ctx : Context) : Observability :=
  { o with ctx := ctx }

/-- Everything observable about one `Observability.StartSpanWith` call:
the returned context, the returned cloned container, the returned span, the
state of the receiver container after the call, and the backend span
operations performed (the `SetAttributes` call when attributes were given). -/
structure StartSpanResult where
  newCtx : Context
  cloned : Observability
  span : Span
  original : Observability
  ops : List SpanOp
  deriving DecidableEq, Repr

/-- `Observability.StartSpanWith` (src/observability/span.go lines 89-97;
`StartSpan` differs only in first converting a `SpanAttributes` map):
`ctx, span := o.Trace.Start(o.ctx, name)`, then `span.SetAttributes(attrs...)`
when attributes were supplied, then `return ctx, o.clone(ctx), span` — the
clone is taken from the receiver as it stands after `Start` returned. -/
def Observability.StartSpanWith (o : Observability) (derived : Context)
    (name : String) (attrs : List OtelAttr) : StartSpanResult :=
  match unifiedTracer.Start o o.ctx derived name with
  | (o1, ctx, sp) =>
    let w : SpanWorld := { obs := o1, ops := [] }
    let w1 := if attrs.isEmpty then w else sp.SetAttributes w attrs
    { newCtx := ctx, cloned := o1.clone ctx, span := sp
      original := w1.obs, ops := w1.ops }

/-- Sample container for evaluating `StartSpanWith` at a concrete input. -/
def obsExC1 : Observability :=
  { ctx := { id := 0 }, serviceName := "svc", apmType := OTLP }

end Observ

/-- C1 (code bug): `StartSpan`/`StartSpanWith` promise that "The original
Observability object is un-changed", but with a non-disabled backend the call
mutates the receiver in place: `unifiedTracer.Start` executes
`t.obs.SetContext(newCtx)`, so the original container's embedded context
changes from its initial value to the new span's context.  Evaluated at the
concrete failing input: an OTLP container with context 0, starting span "A"
whose backend-derived context is 1. -/
theorem C1_codebug_original_mutated :
    obsExC1.ctx = { id := 0 }
    ∧ (obsExC1.StartSpanWith { id := 1 } "A" []).original.ctx = { id := 1 }
    ∧ (obsExC1.StartSpanWith { id := 1 } "A" []).original ≠ obsExC1
    ∧ (obsExC1.StartSpanWith { id := 1 } "A" []).cloned.ctx = { id := 1 } := by
  decide

/-- C2: two nested start/end pairs are an identity transformation on the
ambient context.  Starting span A on container `o` (capturing `o.ctx` as A's
parent), starting child span B on the returned container, ending B, then
ending A leaves the original container's ambient context exactly where it
began, and ending B restores the B-starting container's context to the parent
context captured at B's start.  Holds for every container, every pair of
backend-derived contexts and every pair of span names. -/
theorem C2_nested_start_end_identity (o : Observability) (d1 d2 : Context)
    (nA nB : String) :
    let r1 := o.StartSpanWith d1 nA []
    let r2 := r1.cloned.StartSpanWith d2 nB []
    let wB := r2.span.End { obs := r2.original, ops := [] }
    let wA := r1.span.End { obs := r1.original, ops := wB.ops }
    wA.obs.ctx = o.ctx ∧ wB.obs.ctx = r1.cloned.ctx := by
  by_cases h : o.apmType = NoneT <;>
    simp [Observability.StartSpanWith, unifiedTracer.Start, Observability.clone,
      Span.End, h]

/-- C5: with the disabled backend, `unifiedTracer.Start` returns the very
same parent context it was given together with the no-op span, leaving the
container untouched, and every method of the no-op span handle (`End`,
`AddEvent`, `RecordError`, `SetStatus`, `SetAttributes`) leaves any state
exactly as it was. -/
theorem C5_disabled_backend_noop (o : Observability) (ctx derived : Context)
    (name : String) (w : SpanWorld) (ev errMsg descr : String) (code : StatusCode)
    (attrs evAttrs errAttrs : List OtelAttr) (h : o.apmType = NoneT) :
    unifiedTracer.Start o ctx derived name = (o, ctx, Span.noOp)
    ∧ Span.End Span.noOp w = w
    ∧ Span.AddEvent Span.noOp w ev evAttrs = w
    ∧ Span.RecordError Span.noOp w errMsg errAttrs = w
    ∧ Span.SetStatus Span.noOp w code descr = w
    ∧ Span.SetAttributes Span.noOp w attrs = w := by
  refine ⟨?_, rfl, rfl, rfl, rfl, rfl⟩
  unfold unifiedTracer.Start
  rw [if_pos h]

/-- Sample disabled-backend container and world for the C5 witness. -/
def obsExC5 : Observability :=
  { ctx := { id := 5 }, serviceName := "svc", apmType := NoneT }

/-- Witness for C5 at a concrete disabled-backend container. -/
theorem C5_disabled_backend_noop_witness :
    unifiedTracer.Start obsExC5 { id := 7 } { id := 8 } "op"
      = (obsExC5, { id := 7 }, Span.noOp)
    ∧ Span.End Span.noOp { obs := obsExC5, ops := [] } = { obs := obsExC5, ops := [] }
    ∧ Span.AddEvent Span.noOp { obs := obsExC5, ops := [] } "ev" []
      = { obs := obsExC5, ops := [] }
    ∧ Span.RecordError Span.noOp { obs := obsExC5, ops := [] } "boom" []
      = { obs := obsExC5, ops := [] }
    ∧ Span.SetStatus Span.noOp { obs := obsExC5, ops := [] } StatusCode.error "bad"
      = { obs := obsExC5, ops := [] }
    ∧ Span.SetAttributes Span.noOp { obs := obsExC5, ops := [] } []
      = { obs := obsExC5, ops := [] } :=
  C5_disabled_backend_noop obsExC5 { id := 7 } { id := 8 } "op"
    { obs := obsExC5, ops := [] } "ev" "boom" "bad" StatusCode.error [] [] [] rfl

namespace Observ

/-! ## Correlation logging handler (src/observability/log.go and the
threshold-gated iteration in src/unnamed/part_016 lines 801-990) -/

/-- A `slog.Value`: the kinds the handler distinguishes (`String`, `Int64`,
`Uint64`, `Float64`, `Bool`), a `KindAny` value holding a Go `error`
(identified by its message), and any other `KindAny` value carried together
with its textual rendering.  Floats are opaque bit patterns. -/
inductive SlogValue where
  | str (s : String)
  | int (i : Int)
  | uint (n : Nat)
  | float (bits : Nat)
  | boolV (b : Bool)
  | errVal (msg : String)
  | anyV (rendered : String)
  deriving DecidableEq, Repr

/-- A `slog.Attr`. -/
structure SlogAttr where
  key : String
  value : SlogValue
  deriving DecidableEq, Repr

/-- A `slog.Record`: message, severity level and ordered attributes
(timestamp and source location do not influence the handler's branching). -/
structure Record where
  message : String
  level : Int
  attrs : List SlogAttr
  deriving DecidableEq, Repr

/-- `slog.LevelDebug = -4`. -/
def levelDebug : Int := -4

/-- `slog.LevelInfo = 0`. -/
def levelInfo : Int := 0

/-- `slog.LevelWarn = 4`. -/
def levelWarn : Int := 4

/-- `slog.LevelError = 8`. -/
def levelError : Int := 8

/-- `slog.Value.String()`: the textual rendering of a value (floats and
arbitrary `KindAny` values carry their rendering opaquely; for a Go error the
rendering is its message). -/
def SlogValue.render : SlogValue → String
  | SlogValue.str s => s
  | SlogValue.int i => toString i
  | SlogValue.uint n => Nat.repr n
  | SlogValue.float bits => Nat.repr bits
  | SlogValue.boolV b => if b then "true" else "false"
  | SlogValue.errVal m => m
  | SlogValue.anyV r => r

/-- Go `int64(u)` for a `uint64` value: two's-complement reinterpretation. -/
def int64OfUint64 (n : Nat) : Int :=
  if n % 2 ^ 64 < 2 ^ 63 then Int.ofNat (n % 2 ^ 64)
  else Int.ofNat (n % 2 ^ 64) - 2 ^ 64

/-- `toOtelAttribute` (log.go): kind switch mapping each slog kind to the
matching OTel attribute constructor, with the default branch falling back to
`attribute.String(a.Key, a.Value.String())`. -/
def toOtelAttribute (a : SlogAttr) : OtelAttr :=
  match a.value with
  | SlogValue.str s => { key := a.key, val := OtelAttrVal.str s }
  | SlogValue.int i => { key := a.key, val := OtelAttrVal.int i }
  | SlogValue.uint n => { key := a.key, val := OtelAttrVal.int (int64OfUint64 n) }
  | SlogValue.float bits => { key := a.key, val := OtelAttrVal.float bits }
  | SlogValue.boolV b => { key := a.key, val := OtelAttrVal.boolV b }
  | SlogValue.errVal m => { key := a.key, val := OtelAttrVal.str m }
  | SlogValue.anyV r => { key := a.key, val := OtelAttrVal.str r }

/-- The attribute scan inside `extractError`: first attribute with key
`"error"` whose value type-asserts to a Go `error` (iteration stops there);
an `"error"`-keyed attribute of any other type is skipped. -/
def findLoggedErr : List SlogAttr → Option String
  | [] => Option.none
  | a :: rest =>
    if a.key = "error" then
      match a.value with
      | SlogValue.errVal m => Option.some m
      | _ => findLoggedErr rest
    else findLoggedErr rest

/-- `extractError` (log.go): the record's `error` attribute when one holding
an error exists, otherwise `errors.New(r.Message)`. -/
def extractError (r : Record) : String :=
  match findLoggedErr r.attrs with
  | Option.some m => m
  | Option.none => r.message

/-- What a span accessor can resolve from the ambient context: the OTel span
from `trace.SpanFromContext` (an absent span is OTel's no-op span: no valid
trace/span id — modeled as empty strings — and not recording), and the
Datadog span when `tracer.SpanFromContext` reports ok. -/
structure DDSpanInfo where
  traceID : Nat
  spanID : Nat
  deriving DecidableEq, Repr

/-- The ambient context as seen by the logging handler. -/
structure HandlerCtx where
  otelTraceID : String
  otelSpanID : String
  otelRecording : Bool
  ddSpan : Option DDSpanInfo
  deriving DecidableEq, Repr

/-- `apmHandler.getTraceSpanID` (log.go lines 199-218): empty ids for `None`;
for OTLP the span context's ids when valid; for Datadog the `%d`-formatted
numeric ids when a span is in the context; empty for any other backend
string. -/
def getTraceSpanID (apmType : APMType) (c : HandlerCtx) : String × String :=
  if apmType = NoneT then ("", "")
  else if apmType = OTLP then (c.otelTraceID, c.otelSpanID)
  else if apmType = Datadog then
    match c.ddSpan with
    | Option.some s => (Nat.repr s.traceID, Nat.repr s.spanID)
    | Option.none => ("", "")
  else ("", "")

/-- The correlation attributes `Handle` appends to the record: `trace.id`
then `span.id`, each only when the resolved id is non-empty. -/
def corrAttrs (apmType : APMType) (c : HandlerCtx) : List SlogAttr :=
  (if (getTraceSpanID apmType c).1 ≠ "" then
    [{ key := "trace.id", value := SlogValue.str (getTraceSpanID apmType c).1 }]
  else [])
  ++ (if (getTraceSpanID apmType c).2 ≠ "" then
    [{ key := "span.id", value := SlogValue.str (getTraceSpanID apmType c).2 }]
  else [])

/-- The record after the two conditional `r.AddAttrs` calls at the top of
`Handle` (appending `trace.id` then `span.id` one after the other equals
appending their concatenation). -/
def decorate (apmType : APMType) (c : HandlerCtx) (r : Record) : Record :=
  { r with attrs := r.attrs ++ corrAttrs apmType c }

/-- `apmHandler.handleOTLP` (log.go lines 220-245): nothing unless the OTel
span is recording; at or above `slog.LevelError` the span gets
`RecordError(extractError(r), WithAttributes(otelAttrs...))` followed by
`SetStatus(codes.Error, r.Message)`; otherwise at or above `slog.LevelInfo`
it gets `AddEvent(r.Message, WithAttributes(otelAttrs...))`; below that,
nothing. -/
def handleOTLP (c : HandlerCtx) (r : Record) (slogAttrs : List SlogAttr) : List SpanOp :=
  if c.otelRecording = false then []
  else
    let otelAttrs := slogAttrs.map toOtelAttribute
    if levelError ≤ r.level then
      [SpanOp.recordError (extractError r) otelAttrs,
        SpanOp.setStatus StatusCode.error r.message]
    else if levelInfo ≤ r.level then
      [SpanOp.addEvent r.message otelAttrs]
    else []

/-- `apmHandler.handleDatadog` (log.go lines 247-260): when a Datadog span is
in the context, every attribute is written as a tag
(`SetTag(a.Key, a.Value.String())`), then an `error` tag at or above
`slog.LevelError`, else an `event` tag at or above `slog.LevelInfo`. -/
def handleDatadog (c : HandlerCtx) (r : Record) (attrs : List SlogAttr) : List SpanOp :=
  match c.ddSpan with
  | Option.none => []
  | Option.some _ =>
    attrs.map (fun a => SpanOp.setTag a.key (TagVal.str a.value.render))
    ++ (if levelError ≤ r.level then
        [SpanOp.setTag "error" (TagVal.errV (extractError r))]
      else if levelInfo ≤ r.level then
        [SpanOp.setTag "event" (TagVal.str r.message)]
      else [])

/-- The `apmHandler` (log.go lines 149-160): accumulated `WithAttrs`
attributes and the configured backend. -/
structure ApmHandler where
  attrs : List SlogAttr
  apmType : APMType
  deriving DecidableEq, Repr

/-- Everything observable about one `Handle` call: the operations performed
on the active span, and the (decorated) record delegated to the wrapped
sink handler by the unconditional final `h.Handler.Handle(ctx, r)`. -/
structure HandleResult where
  spanOps : List SpanOp
  sink : Record
  deriving DecidableEq, Repr

/-- `apmHandler.Handle` (log.go lines 162-197): append correlation ids to the
record when non-empty; build `slogAttrs` as the handler's inherited attributes
followed by the record's attributes; dispatch on the backend (nothing for
`None`); always forward the record to the wrapped sink. -/
def ApmHandler.handle (h : ApmHandler) (c : HandlerCtx) (r : Record) : HandleResult :=
  let r2 := decorate h.apmType c r
  let slogAttrs := h.attrs ++ r2.attrs
  let ops :=
    if h.apmType = OTLP then handleOTLP c r2 slogAttrs
    else if h.apmType = Datadog then handleDatadog c r2 slogAttrs
    else []
  { spanOps := ops, sink := r2 }

/-- `apmHandler.WithAttrs` (log.go lines 297-307): the derived handler's
attribute list is the old list with the new attributes copied behind it. -/
def ApmHandler.withAttrs (h : ApmHandler) (attrs : List SlogAttr) : ApmHandler :=
  { h with attrs := h.attrs ++ attrs }

/-- The later `apmHandler` iteration (src/unnamed/part_016 lines 801-817):
same data plus the configured span-attachment threshold `traceLogLevel` and
the source-location toggle. -/
structure ApmHandlerV2 where
  attrs : List SlogAttr
  apmType : APMType
  traceLogLevel : Int
  addSource : Bool
  deriving DecidableEq, Repr

/-- `handleOTLP` of the part_016 iteration (lines 887-912): like the log.go
version but with no inner `LevelInfo` check — the threshold gate in `Handle`
already decided attachment, so the non-error tier always adds the event. -/
def handleOTLPV2 (c : HandlerCtx) (r : Record) (slogAttrs : List SlogAttr) : List SpanOp :=
  if c.otelRecording = false then []
  else
    let otelAttrs := slogAttrs.map toOtelAttribute
    if levelError ≤ r.level then
      [SpanOp.recordError (extractError r) otelAttrs,
        SpanOp.setStatus StatusCode.error r.message]
    else
      [SpanOp.addEvent r.message otelAttrs]

/-- `handleDatadog` of the part_016 iteration (lines 914-927): tags for every
attribute, then `error` or `event` with no inner `LevelInfo` check. -/
def handleDatadogV2 (c : HandlerCtx) (r : Record) (attrs : List SlogAttr) : List SpanOp :=
  match c.ddSpan with
  | Option.none => []
  | Option.some _ =>
    attrs.map (fun a => SpanOp.setTag a.key (TagVal.str a.value.render))
    ++ (if levelError ≤ r.level then
        [SpanOp.setTag "error" (TagVal.errV (extractError r))]
      else
        [SpanOp.setTag "event" (TagVal.str r.message)])

/-- `apmHandler.Handle` of the part_016 iteration (lines 819-864): correlation
ids appended as before, but the whole span-attachment block — building
`slogAttrs` and dispatching on the backend — runs only when
`r.Level >= h.traceLogLevel`; the record is always forwarded to the wrapped
sink.  (Its `getTraceSpanID` differs from log.go only in the Datadog id
formatting API, which `getTraceSpanID` stands in for.) -/
def ApmHandlerV2.handle (h : ApmHandlerV2) (c : HandlerCtx) (r : Record) : HandleResult :=
  let r2 := decorate h.apmType c r
  let ops :=
    if h.traceLogLevel ≤ r.level then
      if h.apmType = OTLP then handleOTLPV2 c r2 (h.attrs ++ r2.attrs)
      else if h.apmType = Datadog then handleDatadogV2 c r2 (h.attrs ++ r2.attrs)
      else []
    else []
  { spanOps := ops, sink := r2 }

/-! ## Composite shutdowner (src/observability/factory.go lines 330-345) -/

/-- The error-collecting loop of `compositeShutdowner.Shutdown`: each
constituent's `Shutdown(ctx)` outcome (its error or nil) is inspected in
order and every non-nil error is appended; no constituent is skipped. -/
def compositeShutdownErrs : List (Option String) → List String
  | [] => []
  | Option.none :: rest => compositeShutdownErrs rest
  | Option.some e :: rest => e :: compositeShutdownErrs rest

/-- `compositeShutdowner.Shutdown`: run every constituent shutdown, collect
the errors, and return `errors.Join(errs...)` when any occurred, else nil. -/
def compositeShutdown (rs : List (Option String)) : Option (List String) :=
  if (compositeShutdownErrs rs).isEmpty then Option.none
  else Option.some (compositeShutdownErrs rs)

end Observ

namespace Observ

/-- The error scan distributes over append: the first list is searched first,
the second only when the first has no error-typed `error` attribute. -/
theorem findLoggedErr_append (xs ys : List SlogAttr) :
    findLoggedErr (xs ++ ys) =
      match findLoggedErr xs with
      | Option.some m => Option.some m
      | Option.none => findLoggedErr ys := by
  induction xs with
  | nil => simp [findLoggedErr]
  | cons a rest ih =>
    by_cases hk : a.key = "error"
    · cases hv : a.value <;> simp [findLoggedErr, hk, hv, ih]
    · simp [findLoggedErr, hk, ih]

/-- The correlation attributes carry only the keys `trace.id` and `span.id`,
so the error scan never picks one of them up. -/
theorem findLoggedErr_corrAttrs (apmType : APMType) (c : HandlerCtx) :
    findLoggedErr (corrAttrs apmType c) = Option.none := by
  unfold corrAttrs
  split <;> split <;> simp [findLoggedErr]

/-- Appending the correlation attributes does not change which error
`extractError` finds. -/
theorem extractError_decorate (apmType : APMType) (c : HandlerCtx) (r : Record) :
    extractError (decorate apmType c r) = extractError r := by
  unfold extractError decorate
  simp only [findLoggedErr_append, findLoggedErr_corrAttrs]
  cases findLoggedErr r.attrs <;> rfl

/-- Decoration only appends attributes; the message is untouched. -/
theorem decorate_message (apmType : APMType) (c : HandlerCtx) (r : Record) :
    (decorate apmType c r).message = r.message := rfl

/-- Decoration only appends attributes; the level is untouched. -/
theorem decorate_level (apmType : APMType) (c : HandlerCtx) (r : Record) :
    (decorate apmType c r).level = r.level := rfl

end Observ

/-- C6: with the OTLP backend and a recording span, handling a record at or
above the error threshold (`slog.LevelError`) performs exactly one
`RecordError` followed by exactly one `SetStatus(Error, r.Message)`, where
the recorded error is the record's `error` attribute when one holding a Go
error exists and otherwise an error synthesized from the message text. -/
theorem C6_error_record_and_status_once (h : ApmHandler) (c : HandlerCtx)
    (r : Record) (hT : h.apmType = OTLP) (hRec : c.otelRecording = true)
    (hLvl : levelError ≤ r.level) :
    (h.handle c r).spanOps =
      [SpanOp.recordError ((findLoggedErr r.attrs).getD r.message)
        ((h.attrs ++ (decorate h.apmType c r).attrs).map toOtelAttribute),
        SpanOp.setStatus StatusCode.error r.message] := by
  have he : extractError (decorate OTLP c r) = (findLoggedErr r.attrs).getD r.message := by
    rw [extractError_decorate]
    cases hfe : findLoggedErr r.attrs <;> simp [extractError, hfe]
  simp [ApmHandler.handle, handleOTLP, hT, hRec, hLvl, he, decorate_level, decorate_message]

/-- Witness data for the handler claims: an OTLP handler with one inherited
attribute. -/
def hExOtlp : ApmHandler :=
  { attrs := [{ key := "component", value := SlogValue.str "db" }], apmType := OTLP }

/-- Witness data: a context with a recording OTel span. -/
def ctxExOtlp : HandlerCtx :=
  { otelTraceID := "aaaa", otelSpanID := "bbbb", otelRecording := true
    ddSpan := Option.none }

/-- Witness data: an error-level record whose `error` attribute holds an
error value. -/
def recExError : Record :=
  { message := "failure", level := 8
    attrs := [{ key := "error", value := SlogValue.errVal "boom" }] }

/-- Witness for C6: the concrete error record produces exactly the
`RecordError "boom"` / `SetStatus Error "failure"` pair. -/
theorem C6_error_record_and_status_once_witness :
    (hExOtlp.handle ctxExOtlp recExError).spanOps =
      [SpanOp.recordError ((findLoggedErr recExError.attrs).getD recExError.message)
        ((hExOtlp.attrs ++ (decorate hExOtlp.apmType ctxExOtlp recExError).attrs).map
          toOtelAttribute),
        SpanOp.setStatus StatusCode.error recExError.message] :=
  C6_error_record_and_status_once hExOtlp ctxExOtlp recExError rfl rfl (by decide)

/-- C7: in the threshold-gated handler iteration, a record whose severity is
below the configured span-attachment threshold causes no span interaction at
all, for every backend and every ambient context. -/
theorem C7_below_threshold_no_span_ops (h : ApmHandlerV2) (c : HandlerCtx)
    (r : Record) (hLvl : r.level < h.traceLogLevel) :
    (h.handle c r).spanOps = [] := by
  have hg : ¬ (h.traceLogLevel ≤ r.level) := not_le.mpr hLvl
  simp [ApmHandlerV2.handle, hg]

/-- Witness data: a threshold-gated Datadog handler with attachment threshold
Info, and a context that does carry a Datadog span. -/
def hExV2 : ApmHandlerV2 :=
  { attrs := [], apmType := Datadog, traceLogLevel := levelInfo, addSource := true }

/-- Witness data: a context carrying a Datadog span. -/
def ctxExDd : HandlerCtx :=
  { otelTraceID := "", otelSpanID := "", otelRecording := false
    ddSpan := Option.some { traceID := 11, spanID := 22 } }

/-- Witness for C7: a debug record below the Info attachment threshold
triggers no span operation even with an active Datadog span. -/
theorem C7_below_threshold_no_span_ops_witness :
    (hExV2.handle ctxExDd { message := "m", level := -4, attrs := [] }).spanOps = [] :=
  C7_below_threshold_no_span_ops hExV2 ctxExDd
    { message := "m", level := -4, attrs := [] } (by decide)

/-- C8: for every handled record, the sink receives the record with
`trace.id` / `span.id` appended exactly when the resolved ids are non-empty
(the correlation attributes carry only those two keys, each guarded by
non-emptiness), the forwarding to the wrapped sink happens for every call
(the sink record is always the decorated input record, whatever the span
attachment did), and under the disabled backend the record reaches the sink
unchanged with no span operation. -/
theorem C8_correlation_ids_and_always_forward (h : ApmHandler) (c : HandlerCtx)
    (r : Record) :
    (h.handle c r).sink.message = r.message
    ∧ (h.handle c r).sink.attrs = r.attrs ++ corrAttrs h.apmType c
    ∧ (∀ a ∈ corrAttrs h.apmType c,
        (a.key = "trace.id" ∧ (getTraceSpanID h.apmType c).1 ≠ "")
        ∨ (a.key = "span.id" ∧ (getTraceSpanID h.apmType c).2 ≠ ""))
    ∧ (h.apmType = NoneT →
        (h.handle c r).sink = r ∧ (h.handle c r).spanOps = []) := by
  refine ⟨rfl, rfl, ?_, fun hN => ?_⟩
  · intro a ha
    unfold corrAttrs at ha
    rcases List.mem_append.1 ha with hmem | hmem
    · left
      constructor
      · split at hmem
        · simp at hmem
          rw [hmem]
        · simp at hmem
      · split at hmem
        · assumption
        · simp at hmem
    · right
      constructor
      · split at hmem
        · simp at hmem
          rw [hmem]
        · simp at hmem
      · split at hmem
        · assumption
        · simp at hmem
  · have hg : getTraceSpanID h.apmType c = ("", "") := by
      rw [hN]
      simp [getTraceSpanID]
    have hcorr : corrAttrs h.apmType c = [] := by
      simp [corrAttrs, hg]
    constructor
    · show decorate h.apmType c r = r
      simp [decorate, hcorr]
    · simp [ApmHandler.handle, hN, OTLP, Datadog, NoneT]

/-- Witness data: a handler configured with the disabled backend. -/
def hExNone : ApmHandler := { attrs := [], apmType := NoneT }

/-- Witness data: an ambient context with no active span at all. -/
def ctxExEmpty : HandlerCtx :=
  { otelTraceID := "", otelSpanID := "", otelRecording := false
    ddSpan := Option.none }

/-- Witness data: the "starting" info record of the spec scenario. -/
def recExInfo : Record := { message := "starting", level := 0, attrs := [] }

/-- Witness for C8: under the disabled backend, the sink receives the record
unchanged (no correlation attributes) and no span method is called. -/
theorem C8_correlation_ids_and_always_forward_witness :
    (hExNone.handle ctxExEmpty recExInfo).sink = recExInfo
    ∧ (hExNone.handle ctxExEmpty recExInfo).spanOps = [] :=
  (C8_correlation_ids_and_always_forward hExNone ctxExEmpty recExInfo).2.2.2 rfl

/-- C9: the aggregate shutdown inspects every constituent — the joined error
list is exactly the list of all non-nil constituent errors, in order, so a
failure does not stop later constituents from being shut down and reported —
and the aggregate returns nil exactly when no constituent failed, otherwise
the join of all errors that occurred. -/
theorem C9_composite_shutdown_joins_all_errors (rs : List (Option String)) :
    compositeShutdownErrs rs = rs.filterMap id
    ∧ (compositeShutdown rs = Option.none ↔ ∀ r ∈ rs, r = Option.none)
    ∧ (compositeShutdown rs ≠ Option.none →
        compositeShutdown rs = Option.some (rs.filterMap id)) := by
  have herrs : compositeShutdownErrs rs = rs.filterMap id := by
    induction rs with
    | nil => rfl
    | cons a rest ih => cases a <;> simp [compositeShutdownErrs, ih]
  refine ⟨herrs, ?_, ?_⟩
  · unfold compositeShutdown
    rw [herrs]
    constructor
    · intro hnone
      by_cases hvac : (rs.filterMap id).isEmpty
      · intro r hr
        rcases r with _ | e
        · rfl
        · exfalso
          have : e ∈ rs.filterMap id := List.mem_filterMap.2 ⟨Option.some e, hr, rfl⟩
          rw [List.isEmpty_iff] at hvac
          rw [hvac] at this
          exact absurd this (List.not_mem_nil e)
      · rw [if_neg hvac] at hnone
        exact absurd hnone (Option.some_ne_none _)
    · intro hall
      have : rs.filterMap id = [] := by
        rw [List.filterMap_eq_nil_iff]
        intro a ha
        rw [hall a ha]
        rfl
      rw [if_pos (by rw [this]; rfl)]
  · intro hne
    unfold compositeShutdown at hne ⊢
    rw [herrs] at hne ⊢
    by_cases hvac : (rs.filterMap id).isEmpty
    · rw [if_pos hvac] at hne
      exact absurd rfl hne
    · rw [if_neg hvac]

/-- Witness for C9: a failing first and third constituent around a clean
second one — both errors are reported, joined in order. -/
theorem C9_composite_shutdown_joins_all_errors_witness :
    compositeShutdown [Option.some "e1", Option.none, Option.some "e2"]
      = Option.some ["e1", "e2"] := by
  rw [(C9_composite_shutdown_joins_all_errors
    [Option.some "e1", Option.none, Option.some "e2"]).2.2 (by decide)]
  decide

/-- C10: attributes inherited through `WithAttrs` are flattened into span
attachment: a derived handler's attribute list is the parent's followed by
the new ones, and the attribute set attached to the span — as the event
attributes under OTLP, and as the per-attribute tag writes under Datadog —
is the handler's inherited attributes followed by the (decorated) record's
own attributes, in that order. -/
theorem C10_inherited_attrs_flattened (h : ApmHandler) (c : HandlerCtx)
    (r : Record) (sAttrs : List SlogAttr) :
    (h.withAttrs sAttrs).attrs = h.attrs ++ sAttrs
    ∧ (h.apmType = OTLP → c.otelRecording = true →
        levelInfo ≤ r.level → r.level < levelError →
        (h.handle c r).spanOps
          = [SpanOp.addEvent r.message
              ((h.attrs ++ (decorate OTLP c r).attrs).map toOtelAttribute)])
    ∧ (h.apmType = Datadog → c.ddSpan ≠ Option.none →
        ∃ tailOps, (h.handle c r).spanOps
          = ((h.attrs ++ (decorate Datadog c r).attrs).map
              (fun a => SpanOp.setTag a.key (TagVal.str a.value.render))) ++ tailOps) := by
  refine ⟨rfl, fun hT hRec hlo hhi => ?_, fun hD hdd => ?_⟩
  · have hne : ¬ (levelError ≤ r.level) := not_le.mpr hhi
    simp [ApmHandler.handle, handleOTLP, hT, hRec, hlo, hne,
      decorate_level, decorate_message]
  · cases hsd : c.ddSpan with
    | none => exact absurd hsd hdd
    | some d =>
      refine ⟨?_, ?_⟩
      case _ =>
        exact (if levelError ≤ (decorate Datadog c r).level then
          [SpanOp.setTag "error" (TagVal.errV (extractError (decorate Datadog c r)))]
        else if levelInfo ≤ (decorate Datadog c r).level then
          [SpanOp.setTag "event" (TagVal.str (decorate Datadog c r).message)]
        else [])
      simp [ApmHandler.handle, handleDatadog, hD, hsd, Datadog, OTLP]

/-- Witness for C10: the concrete OTLP handler with one inherited attribute
attaches an event whose attributes start with the inherited one. -/
theorem C10_inherited_attrs_flattened_witness :
    (hExOtlp.withAttrs [{ key := "k", value := SlogValue.str "v" }]).attrs
      = hExOtlp.attrs ++ [{ key := "k", value := SlogValue.str "v" }]
    ∧ (hExOtlp.handle ctxExOtlp recExInfo).spanOps
      = [SpanOp.addEvent recExInfo.message
          ((hExOtlp.attrs ++ (decorate OTLP ctxExOtlp recExInfo).attrs).map
            toOtelAttribute)] :=
  ⟨(C10_inherited_attrs_flattened hExOtlp ctxExOtlp recExInfo
      [{ key := "k", value := SlogValue.str "v" }]).1,
    (C10_inherited_attrs_flattened hExOtlp ctxExOtlp recExInfo []).2.1
      rfl rfl (by decide) (by decide)⟩
